import Mathlib

/-!
Shallow embedding of `src/elo.py` (python-elo): performance-rating
estimators, the Normal and Logistic distributions, the `Rating` value
type and the Elo rating system, together with theorems settling the
spec claims about them.

Python floats are modelled exactly: the closed-form performance
estimators (`perf_approx`, `perf_fide`) use `ℚ`, which keeps them
executable; the transcendental parts (distributions, Elo) use `ℝ`.
Python's fallible operations (division by zero, list indexing) are
modelled with `Option`.
-/

namespace Elo

/-- `perf_approx` from the source: algorithm-of-400 performance rating
`(total_rating + 400 * (wins - losses)) / (wins + losses + draws)`.
Python raises `ZeroDivisionError` when `wins + losses + draws == 0`;
this is modelled as `none`. -/
def perf_approx (total_rating : ℚ) (wins losses draws : ℤ) : Option ℚ :=
  if wins + losses + draws = 0 then none
  else some ((total_rating + 400 * ((wins : ℚ) - (losses : ℚ))) /
             ((wins : ℚ) + (losses : ℚ) + (draws : ℚ)))

/-- Python `int(q)`: truncation toward zero. -/
def pyInt (q : ℚ) : ℤ :=
  if 0 ≤ q then Int.floor q else -Int.floor (-q)

/-- Python list indexing `l[i]` for an integer index: a negative index
counts from the end; an index out of range raises `IndexError`,
modelled as `none`. -/
def pyIndex (l : List ℤ) (i : ℤ) : Option ℤ :=
  if 0 ≤ i then l.get? i.toNat
  else if 0 ≤ (l.length : ℤ) + i then l.get? ((l.length : ℤ) + i).toNat
  else none

/-- The 51-entry FIDE rating-differential table `dp` from `perf_fide`. -/
def dp : List ℤ :=
  [800, 677, 589, 538, 501, 470, 444, 422, 401, 383,
   366, 351, 336, 322, 309, 296, 284, 273, 262, 251,
   240, 230, 220, 211, 202, 193, 184, 175, 166, 158,
   149, 141, 133, 125, 117, 110, 102, 95, 87, 80,
   72, 65, 57, 50, 43, 36, 29, 21, 14, 7,
   0]

/-- `perf_fide` from the source: `p = int((score / n_games) * 100)`,
mirror `p > 50` to `100 - p` with sign `-1`, return
`mean_rating + sign * dp[p]`. The list lookup is Python indexing. -/
def perf_fide (mean_rating score : ℚ) (n_games : ℕ) : Option ℚ :=
  let p : ℤ := pyInt (score / (n_games : ℚ) * 100)
  let sign : ℤ := if 50 < p then -1 else 1
  let p2 : ℤ := if 50 < p then 100 - p else p
  (pyIndex dp p2).map fun e => mean_rating + ((sign * e : ℤ) : ℚ)

/-- `elo_per_pawn` from the source. -/
noncomputable def elo_per_pawn (mean_rating : ℝ) : ℝ :=
  Real.exp (mean_rating / 1020) * 26.59

/-- The Gauss error function, used by the source through `math.erf`. -/
noncomputable def erf (x : ℝ) : ℝ :=
  (2 / Real.sqrt Real.pi) * ∫ t in (0:ℝ)..x, Real.exp (-t ^ 2)

/-- State of a `NormalDistribution` object: fields `_mean`, `_variance`. -/
structure NormalDistribution where
  mean : ℝ
  variance : ℝ

/-- `NormalDistribution.pdf` from the source: note the exponent is
`-(x - mean) / (2 * variance)`, with no square on `x - mean`. -/
noncomputable def NormalDistribution.pdf (d : NormalDistribution) (x : ℝ) : ℝ :=
  Real.exp (-(x - d.mean) / (2 * d.variance)) / Real.sqrt (2 * Real.pi * d.variance)

/-- `NormalDistribution.cdf` from the source: the anomalous
`a = x - mean / sqrt(2 * variance)` (only `mean` is divided). -/
noncomputable def NormalDistribution.cdf (d : NormalDistribution) (x : ℝ) : ℝ :=
  0.5 + 0.5 * erf (x - d.mean / Real.sqrt (2 * d.variance))

/-- State of a `LogisticDistribution` object: fields `_mean`, `_scale`,
`_variance` (the Python object stores all three). -/
structure LogisticDistribution where
  mean : ℝ
  scale : ℝ
  variance : ℝ

/-- The `LogisticDistribution(mean, scale)` constructor: stores `scale`
and derives `variance = (scale * pi)^2 / 3`. -/
noncomputable def LogisticDistribution.init (mean scale : ℝ) : LogisticDistribution :=
  ⟨mean, scale, (scale * Real.pi) ^ 2 / 3⟩

/-- The `mean` property setter (inherited from `Distribution`). -/
def LogisticDistribution.setMean (d : LogisticDistribution) (m : ℝ) :
    LogisticDistribution :=
  ⟨m, d.scale, d.variance⟩

/-- The `scale` property setter: also rederives `variance`. -/
noncomputable def LogisticDistribution.setScale (d : LogisticDistribution) (s : ℝ) :
    LogisticDistribution :=
  ⟨d.mean, s, (s * Real.pi) ^ 2 / 3⟩

/-- The `variance` property setter: also rederives
`scale = sqrt(3 * variance / pi^2)`. -/
noncomputable def LogisticDistribution.setVariance (d : LogisticDistribution) (v : ℝ) :
    LogisticDistribution :=
  ⟨d.mean, Real.sqrt (3 * v / Real.pi ^ 2), v⟩

/-- `LogisticDistribution.pdf` from the source. -/
noncomputable def LogisticDistribution.pdf (d : LogisticDistribution) (x : ℝ) : ℝ :=
  Real.exp (-(x - d.mean) / d.scale) /
    (d.scale * (1 + Real.exp (-(x - d.mean) / d.scale)) ^ 2)

/-- `LogisticDistribution.cdf` from the source:
`1 / (1 + exp(-(x - mean) / scale))`. -/
noncomputable def LogisticDistribution.cdf (d : LogisticDistribution) (x : ℝ) : ℝ :=
  1 / (1 + Real.exp (-(x - d.mean) / d.scale))

/-- `LogisticDistribution.quantile` from the source. -/
noncomputable def LogisticDistribution.quantile (d : LogisticDistribution) (p : ℝ) : ℝ :=
  d.mean + d.scale * Real.log (p / (1 - p))

/-- A `Rating` object: field `_value`. -/
structure Rating where
  value : ℝ

/-- The class constant `EloRatingSystem.Q = 400 / log(10)`. -/
noncomputable def Q : ℝ := 400 / Real.log 10

/-- State of an `EloRatingSystem` object: it owns one distribution. -/
structure EloRatingSystem where
  dist : LogisticDistribution

/-- The `EloRatingSystem()` constructor: owns `LogisticDistribution(0., Q)`. -/
noncomputable def EloRatingSystem.init : EloRatingSystem :=
  ⟨LogisticDistribution.init 0 Q⟩

/-- `EloRatingSystem.expected(a, b)` as a state transformer: it assigns
`self.dist.mean = b.value` and returns `self.dist.cdf(a.value)`. The
method body never assigns to `a` or `b`, so they pass through
unchanged; the updated system state is returned alongside them. -/
noncomputable def EloRatingSystem.expected (sys : EloRatingSystem) (a b : Rating) :
    EloRatingSystem × Rating × Rating × ℝ :=
  let d := sys.dist.setMean b.value
  (⟨d⟩, a, b, d.cdf a.value)

/-- `EloRatingSystem.adjustment(ex, score, k)`: `k * (score - ex)`. -/
noncomputable def EloRatingSystem.adjustment (ex score k : ℝ) : ℝ :=
  k * (score - ex)

/-- `adjustment` with its default K factor `k = 32`. -/
noncomputable def EloRatingSystem.adjustmentDefault (ex score : ℝ) : ℝ :=
  EloRatingSystem.adjustment ex score 32

/-- `adjustment` as a state transformer on the owning system: it is a
static method whose body reads and writes no object state. -/
noncomputable def EloRatingSystem.adjustmentS (sys : EloRatingSystem)
    (ex score k : ℝ) : EloRatingSystem × ℝ :=
  (sys, EloRatingSystem.adjustment ex score k)

/-! ## Helper lemmas -/

lemma log_ten_pos : 0 < Real.log 10 := Real.log_pos (by norm_num)

lemma exp_Q_eq_rpow (a b : ℝ) :
    Real.exp (-(a - b) / Q) = (10 : ℝ) ^ ((b - a) / 400) := by
  rw [Real.rpow_def_of_pos (by norm_num : (0:ℝ) < 10)]
  congr 1
  have hlog : Real.log 10 ≠ 0 := ne_of_gt log_ten_pos
  unfold Q
  field_simp
  ring

lemma one_div_one_add_exp_add (x : ℝ) :
    1 / (1 + Real.exp x) + 1 / (1 + Real.exp (-x)) = 1 := by
  have hx0 : Real.exp x ≠ 0 := (Real.exp_pos x).ne'
  have h1 : (1:ℝ) + Real.exp x ≠ 0 := by positivity
  have h2 : (1:ℝ) + Real.exp (-x) ≠ 0 := by positivity
  rw [Real.exp_neg] at h2 ⊢
  field_simp
  ring

lemma expNegSq_intble (a b : ℝ) :
    IntervalIntegrable (fun t : ℝ => Real.exp (-t ^ 2)) MeasureTheory.volume a b :=
  Continuous.intervalIntegrable (by continuity) a b

lemma erf_zero : erf 0 = 0 := by
  unfold erf
  simp

lemma erf_monotone : Monotone erf := by
  intro x y hxy
  have hc : (0:ℝ) ≤ 2 / Real.sqrt Real.pi := by positivity
  have hsub := intervalIntegral.integral_interval_sub_left
    (expNegSq_intble 0 y) (expNegSq_intble 0 x)
  have hnn : 0 ≤ ∫ t in x..y, Real.exp (-t ^ 2) :=
    intervalIntegral.integral_nonneg hxy fun u _ => (Real.exp_pos _).le
  unfold erf
  have h : (∫ t in (0:ℝ)..x, Real.exp (-t ^ 2)) ≤
      ∫ t in (0:ℝ)..y, Real.exp (-t ^ 2) := by linarith
  exact mul_le_mul_of_nonneg_left h hc

lemma erf_pos {z : ℝ} (hz : 0 < z) : 0 < erf z := by
  have hc : (0:ℝ) < 2 / Real.sqrt Real.pi := by positivity
  have hint : 0 < ∫ t in (0:ℝ)..z, Real.exp (-t ^ 2) :=
    intervalIntegral.intervalIntegral_pos_of_pos (expNegSq_intble 0 z)
      (fun u => Real.exp_pos _) hz
  exact mul_pos hc hint

lemma perf_fide_p_bounds (s : ℚ) (n : ℕ) (h0 : 0 ≤ s) (h1 : s ≤ (n:ℚ))
    (h2 : 0 < n) :
    pyInt (s / (n:ℚ) * 100) = Int.floor (s / (n:ℚ) * 100) ∧
    0 ≤ Int.floor (s / (n:ℚ) * 100) ∧ Int.floor (s / (n:ℚ) * 100) ≤ 100 := by
  have hn : (0:ℚ) < (n:ℚ) := by exact_mod_cast h2
  have hq0 : 0 ≤ s / (n:ℚ) * 100 :=
    mul_nonneg (div_nonneg h0 hn.le) (by norm_num)
  have hq1 : s / (n:ℚ) * 100 ≤ 100 := by
    have hle1 : s / (n:ℚ) ≤ 1 := (div_le_one hn).mpr h1
    nlinarith
  refine ⟨by rw [pyInt, if_pos hq0], Int.floor_nonneg.mpr hq0, ?_⟩
  have hfl : ((Int.floor (s / (n:ℚ) * 100) : ℚ)) ≤ 100 :=
    le_trans (Int.floor_le (s / (n:ℚ) * 100)) hq1
  exact_mod_cast hfl

lemma dp_length : dp.length = 51 := rfl

lemma perf_fide_eval (m s : ℚ) (n : ℕ) (h0 : 0 ≤ s) (h1 : s ≤ (n:ℚ))
    (h2 : 0 < n) :
    perf_fide m s n =
      some (m + (((if 50 < Int.floor (s / (n:ℚ) * 100) then -1 else 1) *
        ((dp.get? (if 50 < Int.floor (s / (n:ℚ) * 100)
                   then 100 - Int.floor (s / (n:ℚ) * 100)
                   else Int.floor (s / (n:ℚ) * 100)).toNat).getD 0) : ℤ) : ℚ)) := by
  obtain ⟨hpy, hge, hle⟩ := perf_fide_p_bounds s n h0 h1 h2
  have hp2 : 0 ≤ (if 50 < Int.floor (s / (n:ℚ) * 100)
      then 100 - Int.floor (s / (n:ℚ) * 100)
      else Int.floor (s / (n:ℚ) * 100)) := by
    split_ifs <;> omega
  have hp2len : (if 50 < Int.floor (s / (n:ℚ) * 100)
      then 100 - Int.floor (s / (n:ℚ) * 100)
      else Int.floor (s / (n:ℚ) * 100)).toNat < dp.length := by
    rw [dp_length]
    split_ifs <;> omega
  simp only [perf_fide, hpy, pyIndex, if_pos hp2, List.get?_eq_get hp2len,
    Option.map_some', Option.getD_some]

/-! ## Claims about the performance estimators -/

/-- C2: under the precondition, `perf_fide` computes the integer
percentage `p = floor(score / n_games * 100)`, mirrors `p > 50` to
`100 - p` with sign `-1`, and returns `mean_rating + sign * dp[p]`,
where `dp` is exactly the 51-entry table from the source; concretely
`perf_fide(2000, 5, 10) = 2000` and `perf_fide(2000, 8, 10) = 1760`. -/
theorem c2_perf_fide_formula :
    (∀ (m s : ℚ) (n : ℕ), 0 ≤ s → s ≤ (n:ℚ) → 0 < n →
        perf_fide m s n =
          some (m + (((if 50 < Int.floor (s / (n:ℚ) * 100) then -1 else 1) *
            ((dp.get? (if 50 < Int.floor (s / (n:ℚ) * 100)
                       then 100 - Int.floor (s / (n:ℚ) * 100)
                       else Int.floor (s / (n:ℚ) * 100)).toNat).getD 0) : ℤ) : ℚ))) ∧
    dp = [800, 677, 589, 538, 501, 470, 444, 422, 401, 383,
          366, 351, 336, 322, 309, 296, 284, 273, 262, 251,
          240, 230, 220, 211, 202, 193, 184, 175, 166, 158,
          149, 141, 133, 125, 117, 110, 102, 95, 87, 80,
          72, 65, 57, 50, 43, 36, 29, 21, 14, 7,
          0] ∧
    dp.length = 51 ∧
    perf_fide 2000 5 10 = some 2000 ∧
    perf_fide 2000 8 10 = some 1760 := by
  refine ⟨perf_fide_eval, rfl, rfl, ?_, ?_⟩
  · have h : pyInt ((5:ℚ) / ((10:ℕ) : ℚ) * 100) = 50 := by norm_num [pyInt]
    have h2 : pyIndex dp 50 = some 0 := by decide
    norm_num [perf_fide, pyInt, h2]
  · have h : pyInt ((8:ℚ) / ((10:ℕ) : ℚ) * 100) = 80 := by norm_num [pyInt]
    have h2 : pyIndex dp 20 = some 240 := by decide
    norm_num [perf_fide, pyInt, h2]

/-- C2 witness: the general formula applied at mean 2000, score 8,
10 games. -/
theorem c2_perf_fide_witness :
    perf_fide 2000 8 10 =
      some (2000 + (((if 50 < Int.floor ((8:ℚ) / ((10:ℕ):ℚ) * 100) then -1 else 1) *
        ((dp.get? (if 50 < Int.floor ((8:ℚ) / ((10:ℕ):ℚ) * 100)
                   then 100 - Int.floor ((8:ℚ) / ((10:ℕ):ℚ) * 100)
                   else Int.floor ((8:ℚ) / ((10:ℕ):ℚ) * 100)).toNat).getD 0) : ℤ) : ℚ)) :=
  c2_perf_fide_formula.1 2000 8 10 (by norm_num) (by norm_num) (by norm_num)

/-- C8: under the precondition `0 ≤ score ≤ n_games`, `n_games > 0`,
the percentage lies in `[0, 100]` before mirroring and the final table
index lies in `[0, 50]`, so the `dp` lookup never goes out of bounds
(no `IndexError`: `perf_fide` returns a value). -/
theorem c8_dp_index_in_bounds :
    ∀ (m s : ℚ) (n : ℕ), 0 ≤ s → s ≤ (n:ℚ) → 0 < n →
      (0 ≤ pyInt (s / (n:ℚ) * 100) ∧ pyInt (s / (n:ℚ) * 100) ≤ 100) ∧
      (0 ≤ (if 50 < pyInt (s / (n:ℚ) * 100) then 100 - pyInt (s / (n:ℚ) * 100)
            else pyInt (s / (n:ℚ) * 100)) ∧
       (if 50 < pyInt (s / (n:ℚ) * 100) then 100 - pyInt (s / (n:ℚ) * 100)
        else pyInt (s / (n:ℚ) * 100)) ≤ 50) ∧
      (perf_fide m s n).isSome = true := by
  intro m s n h0 h1 h2
  obtain ⟨hpy, hge, hle⟩ := perf_fide_p_bounds s n h0 h1 h2
  rw [hpy]
  refine ⟨⟨hge, hle⟩, ⟨?_, ?_⟩, ?_⟩
  · split_ifs <;> omega
  · split_ifs <;> omega
  · rw [perf_fide_eval m s n h0 h1 h2]
    rfl

/-- C8 witness: the bounds at mean 2000, score 8, 10 games. -/
theorem c8_dp_index_in_bounds_witness :
    (0 ≤ pyInt ((8:ℚ) / ((10:ℕ):ℚ) * 100) ∧
      pyInt ((8:ℚ) / ((10:ℕ):ℚ) * 100) ≤ 100) ∧
    (0 ≤ (if 50 < pyInt ((8:ℚ) / ((10:ℕ):ℚ) * 100)
          then 100 - pyInt ((8:ℚ) / ((10:ℕ):ℚ) * 100)
          else pyInt ((8:ℚ) / ((10:ℕ):ℚ) * 100)) ∧
     (if 50 < pyInt ((8:ℚ) / ((10:ℕ):ℚ) * 100)
      then 100 - pyInt ((8:ℚ) / ((10:ℕ):ℚ) * 100)
      else pyInt ((8:ℚ) / ((10:ℕ):ℚ) * 100)) ≤ 50) ∧
    (perf_fide 2000 8 10).isSome = true :=
  c8_dp_index_in_bounds 2000 8 10 (by norm_num) (by norm_num) (by norm_num)

/-- C7: `perf_approx` returns
`(total_rating + 400 * (wins - losses)) / (wins + losses + draws)` when
the game count is nonzero, fails exactly when
`wins + losses + draws = 0`, and `perf_approx(16000, 8, 1, 1) = 1880`. -/
theorem c7_perf_approx_total :
    (∀ (tr : ℚ) (w l d : ℤ), w + l + d ≠ 0 →
        perf_approx tr w l d =
          some ((tr + 400 * ((w:ℚ) - (l:ℚ))) / ((w:ℚ) + (l:ℚ) + (d:ℚ)))) ∧
    (∀ (tr : ℚ) (w l d : ℤ), w + l + d = 0 → perf_approx tr w l d = none) ∧
    perf_approx 16000 8 1 1 = some 1880 := by
  refine ⟨fun tr w l d h => ?_, fun tr w l d h => ?_, ?_⟩
  · rw [perf_approx, if_neg h]
  · rw [perf_approx, if_pos h]
  · norm_num [perf_approx]

/-- C7 witness: a nonzero-game and a zero-game instance. -/
theorem c7_perf_approx_witness :
    perf_approx 16000 8 1 1 = some 1880 ∧ perf_approx 0 0 0 0 = none :=
  ⟨c7_perf_approx_total.2.2, c7_perf_approx_total.2.1 0 0 0 0 rfl⟩

/-! ## Claims about the distributions -/

/-- C3: the spec claims the pdf exponent contains the squared
difference `(x - mean)^2`; the source computes `-(x - mean) / (2 * variance)`
with no square. At mean 0, variance 1/2, x = 2 the code returns
`exp(-2)/sqrt(pi)`, which differs from the claimed
`exp(-(2-0)^2 / (2*(1/2))) / sqrt(2*pi*(1/2)) = exp(-4)/sqrt(pi)`. -/
theorem c3_pdf_exponent_not_squared :
    NormalDistribution.pdf ⟨0, 1/2⟩ 2 = Real.exp (-2) / Real.sqrt Real.pi ∧
    NormalDistribution.pdf ⟨0, 1/2⟩ 2 ≠
      Real.exp (-((2:ℝ) - 0) ^ 2 / (2 * (1/2))) / Real.sqrt (2 * Real.pi * (1/2)) := by
  have hπ : Real.sqrt Real.pi ≠ 0 := ne_of_gt (Real.sqrt_pos.mpr Real.pi_pos)
  have h1 : NormalDistribution.pdf ⟨0, 1/2⟩ 2 = Real.exp (-2) / Real.sqrt Real.pi := by
    show Real.exp (-((2:ℝ) - 0) / (2 * (1/2))) / Real.sqrt (2 * Real.pi * (1/2)) = _
    rw [show -((2:ℝ) - 0) / (2 * (1/2)) = -2 by norm_num,
        show (2:ℝ) * Real.pi * (1/2) = Real.pi by ring]
  refine ⟨h1, ?_⟩
  rw [h1, show -((2:ℝ) - 0) ^ 2 / (2 * (1/2)) = -4 by norm_num,
      show (2:ℝ) * Real.pi * (1/2) = Real.pi by ring]
  intro h
  field_simp at h
  norm_num at h

/-- C4 counterexample: under the source's anomalous cdf formula,
`cdf(mean)` is not `0.5` for every valid pair; at mean 1, variance 1
the argument of erf is `1 - 1/sqrt 2 > 0`, so `cdf(1) > 0.5`. -/
theorem c4_cdf_at_mean_counterexample :
    ¬ (NormalDistribution.cdf ⟨1, 1⟩ 1 = 0.5) := by
  intro h
  have h1 : (0.5 : ℝ) + 0.5 * erf (1 - 1 / Real.sqrt (2 * 1)) = 0.5 := h
  have hs2 : 1 < Real.sqrt (2 * 1) := by
    rw [show (2:ℝ) * 1 = 2 by norm_num]
    rw [show (1:ℝ) = Real.sqrt 1 by simp]
    exact Real.sqrt_lt_sqrt (by norm_num) (by norm_num)
  have hspos : 0 < Real.sqrt (2 * 1) := lt_trans one_pos hs2
  have hz : 0 < 1 - 1 / Real.sqrt (2 * 1) := by
    have : 1 / Real.sqrt (2 * 1) < 1 := by
      rw [div_lt_one hspos]
      exact hs2
    linarith
  have hpos := erf_pos hz
  linarith

/-- C4 (amended): under the source's exact formula, the cdf is
non-decreasing in `x` for every `(mean, variance > 0)`, and
`cdf(mean) = 0.5` holds when `mean = 0` (not for every mean). -/
theorem c4_cdf_monotone_and_half_at_zero_mean (mean var : ℝ) (hv : 0 < var) :
    Monotone (fun x => NormalDistribution.cdf ⟨mean, var⟩ x) ∧
    (mean = 0 → NormalDistribution.cdf ⟨mean, var⟩ mean = 0.5) := by
  constructor
  · intro x y hxy
    show (0.5 : ℝ) + 0.5 * erf (x - mean / Real.sqrt (2 * var)) ≤
        0.5 + 0.5 * erf (y - mean / Real.sqrt (2 * var))
    have h2 := erf_monotone
      (by linarith : x - mean / Real.sqrt (2 * var) ≤ y - mean / Real.sqrt (2 * var))
    linarith
  · intro hm
    subst hm
    show (0.5 : ℝ) + 0.5 * erf (0 - 0 / Real.sqrt (2 * var)) = 0.5
    rw [show (0:ℝ) - 0 / Real.sqrt (2 * var) = 0 by simp, erf_zero]
    norm_num

/-- C4 witness: at mean 0, variance 1, the amended statement holds
concretely. -/
theorem c4_cdf_witness :
    Monotone (fun x => NormalDistribution.cdf ⟨0, 1⟩ x) ∧
    NormalDistribution.cdf ⟨0, 1⟩ 0 = 0.5 :=
  ⟨(c4_cdf_monotone_and_half_at_zero_mean 0 1 one_pos).1,
   (c4_cdf_monotone_and_half_at_zero_mean 0 1 one_pos).2 rfl⟩

/-- C9: for a `LogisticDistribution`, `variance = (scale * pi)^2 / 3`
holds after construction and after every assignment to either
property: setting `scale = s` makes `variance = (s * pi)^2 / 3`, and
for `v ≥ 0` setting `variance = v` makes `scale = sqrt(3 * v / pi^2)`
with the two still consistent. -/
theorem c9_scale_variance_consistent :
    (∀ m s : ℝ, (LogisticDistribution.init m s).variance =
        ((LogisticDistribution.init m s).scale * Real.pi) ^ 2 / 3) ∧
    (∀ (d : LogisticDistribution) (s : ℝ),
        (d.setScale s).scale = s ∧
        (d.setScale s).variance = (s * Real.pi) ^ 2 / 3 ∧
        (d.setScale s).variance = ((d.setScale s).scale * Real.pi) ^ 2 / 3) ∧
    (∀ (d : LogisticDistribution) (v : ℝ), 0 ≤ v →
        (d.setVariance v).scale = Real.sqrt (3 * v / Real.pi ^ 2) ∧
        (d.setVariance v).variance = v ∧
        (d.setVariance v).variance =
          ((d.setVariance v).scale * Real.pi) ^ 2 / 3) := by
  refine ⟨fun m s => rfl, fun d s => ⟨rfl, rfl, rfl⟩, fun d v hv => ⟨rfl, rfl, ?_⟩⟩
  show v = (Real.sqrt (3 * v / Real.pi ^ 2) * Real.pi) ^ 2 / 3
  have harg : (0:ℝ) ≤ 3 * v / Real.pi ^ 2 :=
    div_nonneg (by linarith) (by positivity)
  rw [mul_pow, Real.sq_sqrt harg]
  have hπ : Real.pi ≠ 0 := Real.pi_ne_zero
  field_simp

/-- C9 witness: setting `variance = 3` on a concrete distribution. -/
theorem c9_scale_variance_witness :
    ((LogisticDistribution.init 0 1).setVariance 3).scale =
      Real.sqrt (3 * 3 / Real.pi ^ 2) ∧
    ((LogisticDistribution.init 0 1).setVariance 3).variance = 3 ∧
    ((LogisticDistribution.init 0 1).setVariance 3).variance =
      ((((LogisticDistribution.init 0 1).setVariance 3).scale) * Real.pi) ^ 2 / 3 :=
  c9_scale_variance_consistent.2.2 (LogisticDistribution.init 0 1) 3 zero_le_three

/-! ## Claims about the Elo rating system -/

/-- C1: `expected(a, b)` rebinds the owned distribution's mean to
`b.value`, evaluates the logistic cdf at `a.value`, and returns exactly
`1 / (1 + 10^((b.value - a.value)/400))`; in particular `1/2` for
1600 vs 1600 and `10/11` for 2000 vs 1600. -/
theorem c1_expected_closed_form :
    (∀ a b : Rating,
        ((EloRatingSystem.init.expected a b).1).dist.mean = b.value ∧
        (EloRatingSystem.init.expected a b).2.2.2 =
          1 / (1 + (10 : ℝ) ^ ((b.value - a.value) / 400))) ∧
    (EloRatingSystem.init.expected ⟨1600⟩ ⟨1600⟩).2.2.2 = 1 / 2 ∧
    (EloRatingSystem.init.expected ⟨2000⟩ ⟨1600⟩).2.2.2 = 10 / 11 := by
  have hmain : ∀ a b : Rating,
      ((EloRatingSystem.init.expected a b).1).dist.mean = b.value ∧
      (EloRatingSystem.init.expected a b).2.2.2 =
        1 / (1 + (10 : ℝ) ^ ((b.value - a.value) / 400)) := by
    intro a b
    refine ⟨rfl, ?_⟩
    show (LogisticDistribution.cdf _ _) = _
    rw [LogisticDistribution.cdf]
    rw [show ((EloRatingSystem.init.dist.setMean b.value).mean) = b.value from rfl,
        show ((EloRatingSystem.init.dist.setMean b.value).scale) = Q from rfl,
        exp_Q_eq_rpow]
  refine ⟨hmain, ?_, ?_⟩
  · rw [(hmain ⟨1600⟩ ⟨1600⟩).2]
    norm_num [Real.rpow_zero]
  · rw [(hmain ⟨2000⟩ ⟨1600⟩).2]
    rw [show (((1600:ℝ)) - (2000:ℝ)) / 400 = (-1 : ℝ) by norm_num,
        Real.rpow_neg_one]
    norm_num

/-- C5: the expected scores of the two orderings of any pair of ratings
sum to 1, including when the second call runs on the system state the
first call left behind. -/
theorem c5_expected_symmetry (a b : Rating) :
    (EloRatingSystem.init.expected a b).2.2.2 +
      (((EloRatingSystem.init.expected a b).1).expected b a).2.2.2 = 1 := by
  show (LogisticDistribution.cdf _ _) + (LogisticDistribution.cdf _ _) = 1
  rw [LogisticDistribution.cdf, LogisticDistribution.cdf]
  rw [show ((EloRatingSystem.init.dist.setMean b.value).mean) = b.value from rfl,
      show ((EloRatingSystem.init.dist.setMean b.value).scale) = Q from rfl]
  rw [show ((((EloRatingSystem.init.expected a b).1).dist.setMean a.value).mean)
        = a.value from rfl,
      show ((((EloRatingSystem.init.expected a b).1).dist.setMean a.value).scale)
        = Q from rfl]
  have h : -(b.value - a.value) / Q = -(-(a.value - b.value) / Q) := by ring
  rw [h]
  exact one_div_one_add_exp_add (-(a.value - b.value) / Q)

/-- C5 witness: concrete instance at ratings 1600 and 2000. -/
theorem c5_expected_symmetry_witness :
    (EloRatingSystem.init.expected ⟨1600⟩ ⟨2000⟩).2.2.2 +
      (((EloRatingSystem.init.expected ⟨1600⟩ ⟨2000⟩).1).expected ⟨2000⟩ ⟨1600⟩).2.2.2
        = 1 :=
  c5_expected_symmetry ⟨1600⟩ ⟨2000⟩

/-- C6: `adjustment(ex, score, k)` returns exactly `k * (score - ex)`
for arbitrary real arguments, `k` defaults to 32, and concretely
`adjustment(0.5, 1, 32) = 16` and `adjustment(0.5, 0, 32) = -16`. -/
theorem c6_adjustment_linear :
    (∀ ex score k : ℝ, EloRatingSystem.adjustment ex score k = k * (score - ex)) ∧
    (∀ ex score : ℝ, EloRatingSystem.adjustmentDefault ex score =
        EloRatingSystem.adjustment ex score 32) ∧
    EloRatingSystem.adjustment 0.5 1 32 = 16 ∧
    EloRatingSystem.adjustment 0.5 0 32 = -16 := by
  refine ⟨fun ex score k => rfl, fun ex score => rfl, ?_, ?_⟩ <;>
    norm_num [EloRatingSystem.adjustment]

/-- C10: `expected(a, b)` changes nothing except the owned
distribution's mean (set to `b.value`): scale and variance are
untouched and the `Rating` arguments pass through unmutated;
`adjustment` changes no state at all. -/
theorem c10_expected_frame :
    (∀ (sys : EloRatingSystem) (a b : Rating),
        ((sys.expected a b).1).dist.mean = b.value ∧
        ((sys.expected a b).1).dist.scale = sys.dist.scale ∧
        ((sys.expected a b).1).dist.variance = sys.dist.variance ∧
        (sys.expected a b).2.1 = a ∧
        (sys.expected a b).2.2.1 = b) ∧
    (∀ (sys : EloRatingSystem) (ex score k : ℝ),
        (sys.adjustmentS ex score k).1 = sys) :=
  ⟨fun _ _ _ => ⟨rfl, rfl, rfl, rfl, rfl⟩, fun _ _ _ _ => rfl⟩

end Elo
